import Mathlib

set_option maxRecDepth 8000

/-!
Verification of the panel-layout logic of `anemoi-analyse`.

This file shallowly embeds the layout resolver `panel_daemon` and the
panel-binding loop of `FieldPlotter.plot` (`src/anemoi_analyse/field_plotter.py`),
and the dataset assembly `get_data` (`src/anemoi_analyse/data.py`), and proves
properties of the embedded definitions.

Python-specific behaviour is modelled explicitly:
* `np.argsort` on a 3-element array uses insertion sort, which is stable;
  `argsort3` reproduces that stable ascending order.
* Indexing a Python list with `None` (`conf_map[ens_mean[-1]]` when the slot is
  `None`) raises `TypeError`; `conf_map[0]` is the *value* `None`, which makes
  the later `tuple(ens_mean)` call raise `TypeError`.  Both surface as the
  `typeError` constructor.
* `panel_shape = var_len_xy` aliases the two numpy arrays, so the reference
  increment `panel_shape[ref_dim] += 1` is visible through `var_len_xy` too;
  the embedding therefore builds `var_len_xy` from the incremented shape.
* The asserts of `panel_daemon` surface as `invalidDimension`, the explicit
  `raise ValueError("Panel limit reached!")` as `panelLimitExceeded`.
-/

inductive PanelError where
  | invalidDimension
  | panelLimitExceeded
  | typeError
  | indexOutOfRange
deriving DecidableEq, Repr

instance {ε α : Type} [DecidableEq ε] [DecidableEq α] : DecidableEq (Except ε α) :=
  fun a b =>
    match a, b with
    | .ok x, .ok y =>
      if h : x = y then .isTrue (by rw [h]) else .isFalse (fun c => h (Except.ok.inj c))
    | .error e, .error f =>
      if h : e = f then .isTrue (by rw [h]) else .isFalse (fun c => h (Except.error.inj c))
    | .ok _, .error _ => .isFalse (fun c => Except.noConfusion c)
    | .error _, .ok _ => .isFalse (fun c => Except.noConfusion c)

/-- A slot marker as returned by `panel_daemon`: either the original tuple of
optional per-direction indices (`ens_mean` is a 3-tuple `[all, x, y]`, `ref`
a 2-tuple `[x, y]`), or the pair produced by the `conf_map` remap in the
collapsed 1D case. -/
inductive Slots where
  | opts (l : List (Option Nat))
  | coord (p : Nat × Nat)
deriving DecidableEq, Repr

/-- The tuple returned by `panel_daemon` (field_plotter.py line 148). -/
structure PanelPlan where
  panel_shape : Nat × Nat
  var_idx_xy : List Nat
  var_len_xy : List Nat
  ens_mean : Slots
  ref : Slots
deriving DecidableEq, Repr

/-- Lines 72-82: resolve `ens_size if None` and add the ensemble-mean slot
(`num_members = ens_size + plot_ens_mean`, with Python bool arithmetic). -/
def numMembers (ens_size : Option Nat) (pm : Bool) : Nat :=
  (match ens_size with
   | none => if pm then 0 else 1
   | some n => n) + (if pm then 1 else 0)

/-- `np.argsort` on the 3-element array `[a, b, c]`: numpy falls back to a
stable insertion sort below 16 elements, so equal values keep their original
index order.  Returns the index permutation in ascending value order. -/
def argsort3 (a b c : Nat) : Nat × Nat × Nat :=
  if b < a then
    if c < b then (2, 1, 0) else if c < a then (1, 2, 0) else (1, 0, 2)
  else
    if c < a then (2, 0, 1) else if c < b then (0, 2, 1) else (0, 1, 2)

/-- `var_len[i]` for `var_len = [num_models, num_lead_times, num_members]`. -/
def dimLen (m l nm : Nat) : Nat → Nat
  | 0 => m
  | 1 => l
  | _ => nm

/-- Lines 98-106: the ensemble-mean position `[only ens mean, x, y]`. -/
def ensMeanSlots (pm : Bool) (x0 x1 nm : Nat) : Option Nat × Option Nat × Option Nat :=
  if pm then
    if x0 = 2 then (none, some (nm - 1), none)
    else if x1 = 2 then (none, none, some (nm - 1))
    else (some 0, none, none)
  else (none, none, none)

/-- Lines 108-118: the reference position `[x, y]` and the incremented
`panel_shape`.  The reference is appended along direction 0 unless the
second-longest dimension is lead time (`var_idx_xy[0] == 1`). -/
def refExtend (ir : Bool) (x0 : Nat) (shape : Nat × Nat) :
    (Option Nat × Option Nat) × (Nat × Nat) :=
  if ir then
    if x0 ≠ 1 then ((some shape.1, none), (shape.1 + 1, shape.2))
    else ((none, some shape.2), (shape.1, shape.2 + 1))
  else ((none, none), shape)

/-- Lines 122-127: the near-square packing table (`conf_map`), indexed by
panel count; entry 0 is Python `None`. -/
def conf_map : List (Option (Nat × Nat)) :=
  [none,
   some (1, 1), some (1, 2), some (2, 2), some (2, 2),
   some (2, 3), some (2, 3), some (2, 4), some (2, 4),
   some (3, 3), some (3, 4), some (3, 4), some (3, 4),
   some (4, 4), some (4, 4), some (4, 4), some (4, 4)]

/-- Line 128: `panel_limit = len(conf_map) - 1`. -/
def panel_limit : Nat := conf_map.length - 1

/-- The packing-table entry for count `n`, with a junk default outside the
table. -/
def confPair (n : Nat) : Nat × Nat := (conf_map.getD n none).getD (0, 0)

/-- `conf_map[idx]` with Python semantics: indexing with `None` raises
`TypeError`, indexing past the end raises `IndexError`; a successful access
may still yield the value `None` (at index 0). -/
def confMapExc (idx : Option Nat) : Except PanelError (Option (Nat × Nat)) :=
  match idx with
  | none => .error .typeError
  | some n =>
    match conf_map[n]? with
    | none => .error .indexOutOfRange
    | some v => .ok v

/-- The collapse remap `slot = conf_map[slot[-1]]` followed by the eventual
`tuple(slot)`: a `None` table value makes that `tuple` call raise `TypeError`,
which is folded into the remap here. -/
def remapSlot (idx : Option Nat) : Except PanelError Slots :=
  match confMapExc idx with
  | .ok (some p) => .ok (.coord p)
  | .ok none => .error .typeError
  | .error e => .error e

def slotsOf3 (t : Option Nat × Option Nat × Option Nat) : Slots :=
  .opts [t.1, t.2.1, t.2.2]

def slotsOf2 (t : Option Nat × Option Nat) : Slots :=
  .opts [t.1, t.2]

/-- Lines 121-139: the 1D degenerate collapse.  `c` is the panel count
`panel_shape[-1]`, `x1` the single remaining dimension index; the
ensemble-mean and reference slots are remapped through `conf_map` (in the
source's evaluation order: limit check, ens-mean remap, reference remap,
shape remap), and `var_len_xy` becomes the one-element slice
`panel_shape[1:]`. -/
def collapseStep (x1 c : Nat) (pm ir : Bool)
    (em0 : Option Nat × Option Nat × Option Nat) (ref0 : Option Nat × Option Nat) :
    Except PanelError PanelPlan :=
  if panel_limit < c then .error .panelLimitExceeded
  else
    match (if pm then remapSlot em0.2.2 else .ok (slotsOf3 em0)),
          (if ir then remapSlot ref0.2 else .ok (slotsOf2 ref0)),
          confMapExc (some c) with
    | .ok em, .ok rf, .ok (some p) => .ok ⟨p, [x1], [c], em, rf⟩
    | .ok _, .ok _, .ok none => .error .typeError
    | .error e, _, _ => .error e
    | .ok _, .error e, _ => .error e
    | .ok _, .ok _, .error e => .error e

/-- Lines 89-139 of `panel_daemon`: axis assignment, ensemble-mean and
reference placement, and the 1D degenerate collapse.  Runs after the
dimension asserts. -/
def panelCore (m l nm : Nat) (pm ir : Bool) : Except PanelError PanelPlan :=
  let s := argsort3 m l nm
  let x0 := s.2.1
  let x1 := s.2.2
  let shape0 := (dimLen m l nm x0, dimLen m l nm x1)
  let em0 := ensMeanSlots pm x0 x1 nm
  let rs := refExtend ir x0 shape0
  let shape1 := rs.2
  if min shape1.1 shape1.2 < 2 then collapseStep x1 shape1.2 pm ir em0 rs.1
  else .ok ⟨shape1, [x0, x1], [shape1.1, shape1.2], slotsOf3 em0, slotsOf2 rs.1⟩

/-- Lines 141-146: `reversed` applied to a slot tuple. -/
def slotsRev : Slots → Slots
  | .opts l => .opts l.reverse
  | .coord p => .coord (p.2, p.1)

/-- Lines 141-146: the `swap_axes` reversal of every component. -/
def swapPlan (p : PanelPlan) : PanelPlan :=
  ⟨(p.panel_shape.2, p.panel_shape.1), p.var_idx_xy.reverse, p.var_len_xy.reverse,
   slotsRev p.ens_mean, slotsRev p.ref⟩

/-- `var_len = np.array([num_models, num_lead_times, num_members])` (line 85). -/
def varLen3 (m l : Nat) (es : Option Nat) (pm : Bool) : List Nat :=
  [m, l, numMembers es pm]

/-- `panel_daemon` (field_plotter.py lines 18-148). -/
def panel_daemon (m l : Nat) (es : Option Nat) (pm ir sw : Bool) :
    Except PanelError PanelPlan :=
  let nm := numMembers es pm
  if 0 ∈ [m, l, nm] then .error .invalidDimension
  else if 1 ∉ [m, l, nm] then .error .invalidDimension
  else
    match panelCore m l nm pm ir with
    | .ok p => .ok (if sw then swapPlan p else p)
    | .error e => .error e

/-! ## The panel binder

Embedding of the grid walk of `FieldPlotter.plot` (field_plotter.py lines
474-524), restricted to what is observable per cell: the role of the panel,
the selection indices `idx = [model_idx, lt_idx, ens_idx]`, and the two
title labels.  The actual rendering calls are out of scope.  In the
ensemble-mean branch the source reads `label_y`, a variable that is unbound
on the first panel of the figure (a latent `NameError`); the embedding uses
`none` there. -/

/-- `idx[pos] = v` for the 3-list `idx`. -/
def set_idx (idx : Nat × Nat × Nat) (pos v : Nat) : Nat × Nat × Nat :=
  match pos with
  | 0 => (v, idx.2.1, idx.2.2)
  | 1 => (idx.1, v, idx.2.2)
  | _ => (idx.1, idx.2.1, v)

/-- `model_label` (lines 457-462). -/
def model_label (model_labels : Option (List String)) (i : Nat) : String :=
  match model_labels with
  | none => "model " ++ toString i
  | some ls => if ls.length ≤ i then "" else ls.getD i ""

/-- `lt_label` (lines 464-466): `6 * lead_times[i]` hours. -/
def lt_label (lead_times : List Nat) (i : Nat) : String :=
  "+" ++ toString (6 * lead_times.getD i 0) ++ "h"

/-- `member_label` (lines 468-470). -/
def member_label (members : List Nat) (i : Nat) : String :=
  "member " ++ toString (members.getD i 0)

/-- The per-figure inputs the label closures capture. -/
structure BinderCtx where
  lead_times : List Nat
  members : List Nat
  model_labels : Option (List String)

/-- `labels = [model_label, lt_label, member_label]` (line 471), applied at
dimension index `d`. -/
def label_of (ctx : BinderCtx) (d i : Nat) : String :=
  match d with
  | 0 => model_label ctx.model_labels i
  | 1 => lt_label ctx.lead_times i
  | _ => member_label ctx.members i

inductive PanelRole where
  | empty
  | ensMean
  | reference
  | ordinary
deriving DecidableEq, Repr

/-- What one iteration of the plot loop decides for a cell. -/
structure PanelRequest where
  role : PanelRole
  sel : Option (Nat × Nat × Nat)
  titlex : Option String
  titley : Option String
deriving DecidableEq, Repr

inductive BindError where
  | unpackError
deriving DecidableEq, Repr

/-- `o is None or v == o` in the slot-hit conditions (lines 491, 500). -/
def optHit (o : Option Nat) (v : Nat) : Bool :=
  match o with
  | none => true
  | some x => v == x

/-- `i_em, j_em = ens_mean; (i_em is None or i==i_em) and (j_em is None or
j==j_em)` — Python tuple unpacking into two names fails unless the tuple has
exactly two entries (the non-collapsed `ens_mean` is a 3-tuple, so reaching
this line with `plot_ens_mean` set raises `ValueError`). -/
def slotHit (s : Slots) (i j : Nat) : Except BindError Bool :=
  match s with
  | .coord p => .ok (i == p.1 && j == p.2)
  | .opts [a, b] => .ok (optHit a i && optHit b j)
  | .opts _ => .error .unpackError

/-- Lines 489-524 after the index assignment: the ensemble-mean check, the
reference check, then the ordinary panel with its edge-only labels. -/
def bindRest (plan : PanelPlan) (pm ir : Bool) (ref_lab : String)
    (idx : Nat × Nat × Nat) (lx ly : Option String) (i j : Nat) :
    Except BindError PanelRequest :=
  match (if pm then slotHit plan.ens_mean i j else .ok false) with
  | .error e => .error e
  | .ok true =>
    .ok ⟨.ensMean, none, if i == 0 then some "ensemble mean" else none, none⟩
  | .ok false =>
    match (if ir then slotHit plan.ref i j else .ok false) with
    | .error e => .error e
    | .ok true =>
      .ok ⟨.reference, none, if i == 0 then some ref_lab else none,
           if j == 0 then some ref_lab else none⟩
    | .ok false => .ok ⟨.ordinary, some idx, lx, ly⟩

/-- One cell `(i, j)` of the plot loop (lines 477-524): linear index `k`,
the empty-panel check of the collapsed 1D case, index assignment, then
`bindRest`. -/
def bindPanel (plan : PanelPlan) (pm ir : Bool) (ctx : BinderCtx)
    (ref_lab : String) (i j : Nat) : Except BindError PanelRequest :=
  let k := plan.panel_shape.2 * i + j
  if plan.var_idx_xy.length == 1 then
    let d := plan.var_idx_xy.getD 0 0
    if plan.var_len_xy.getD 0 0 ≤ k then .ok ⟨.empty, none, none, none⟩
    else
      bindRest plan pm ir ref_lab (set_idx (0, 0, 0) d k)
        (some (label_of ctx d k)) none i j
  else
    let d0 := plan.var_idx_xy.getD 0 0
    let d1 := plan.var_idx_xy.getD 1 0
    bindRest plan pm ir ref_lab (set_idx (set_idx (0, 0, 0) d0 i) d1 j)
      (if i == 0 then some (label_of ctx d1 j) else none)
      (if j == 0 then some (label_of ctx d0 i) else none) i j

/-- The role the binder assigns to a cell, if it binds without error. -/
def roleAt (plan : PanelPlan) (pm ir : Bool) (ctx : BinderCtx)
    (ref_lab : String) (i j : Nat) : Option PanelRole :=
  match bindPanel plan pm ir ctx ref_lab i j with
  | .ok r => some r.role
  | .error _ => none

/-- The top title of a cell, if it binds without error (flattened). -/
def titlexAt (plan : PanelPlan) (pm ir : Bool) (ctx : BinderCtx)
    (ref_lab : String) (i j : Nat) : Option String :=
  match bindPanel plan pm ir ctx ref_lab i j with
  | .ok r => r.titlex
  | .error _ => none

/-- The left title of a cell, if it binds without error (flattened). -/
def titleyAt (plan : PanelPlan) (pm ir : Bool) (ctx : BinderCtx)
    (ref_lab : String) (i j : Nat) : Option String :=
  match bindPanel plan pm ir ctx ref_lab i j with
  | .ok r => r.titley
  | .error _ => none

/-! ## Dataset assembly (`data.py`, `get_data`, lines 32-75)

The xarray operations that shape the `members` dimension are embedded over an
abstract per-file dataset type `Raw`; the per-field unit conversions of lines
69-74 rescale values and do not touch dimensions, so they are not modelled. -/

/-- A dataset with an explicit `members` dimension: the `members` coordinate
values and one raw slice per member. -/
structure EnsDS (Raw : Type) where
  memberCoords : List Nat
  slices : List Raw
deriving DecidableEq, Repr

/-- `ds.expand_dims('members').assign_coords(members=[c])`. -/
def expandDimsMembers {Raw : Type} (raw : Raw) (c : Nat) : EnsDS Raw :=
  ⟨[c], [raw]⟩

/-- `xr.concat(datasets, dim='members')`: fails on an empty list, otherwise
concatenates coordinates and slices along the members axis. -/
def xrConcatMembers {Raw : Type} (ds : List (EnsDS Raw)) : Except String (EnsDS Raw) :=
  match ds with
  | [] => .error "must supply at least one object to concatenate"
  | _ => .ok ⟨(ds.map (·.memberCoords)).flatten, (ds.map (·.slices)).flatten⟩

/-- How `get_data` locates its input: a direct `.nc` path, a glob for a
deterministic run (`ens_size is None`), or per-member subdirectory globs
(`path + f"{i}/{file_prefix}*{time}.nc"`).  `find i` is the first glob hit
for member `i`, `none` when the glob is empty. -/
inductive DataSource (Raw : Type) where
  | ncFile (raw : Raw)
  | detDir (raw : Raw)
  | ensDir (find : Nat → Option Raw) (ens_size : Nat)

/-- The member loop of lines 56-63: collect one file per member index
`0 .. ens_size-1`, failing at the first missing file. -/
def collectMembers {Raw : Type} (find : Nat → Option Raw) : Nat → Except String (List Raw)
  | 0 => .ok []
  | n + 1 =>
    match collectMembers find n, find n with
    | .ok rs, some r => .ok (rs ++ [r])
    | .ok _, none => .error "No inference file found"
    | .error e, _ => .error e

/-- `[ds.expand_dims('members').assign_coords(members=[i]) for i, ds in
enumerate(datasets)]` (line 65), with the running index made explicit. -/
def withMembers {Raw : Type} : List Raw → Nat → List (EnsDS Raw)
  | [], _ => []
  | r :: rest, k => expandDimsMembers r k :: withMembers rest (k + 1)

/-- `get_data` (data.py lines 32-75), up to the unit conversions. -/
def get_data {Raw : Type} : DataSource Raw → Except String (EnsDS Raw)
  | .ncFile raw => .ok (expandDimsMembers raw 1)
  | .detDir raw => .ok (expandDimsMembers raw 1)
  | .ensDir find n =>
    match collectMembers find n with
    | .ok raws => xrConcatMembers (withMembers raws 0)
    | .error e => .error e

/-! ## Spec-side definition for the swap-axes round-trip

The spec's step 8 transposes every grid-coordinate field, "exchanging x/y
roles".  For the 3-tuple `ens_mean = [all, x, y]` that means keeping the
"all" flag in place and exchanging the x and y entries; the source instead
applies `reversed` to the whole tuple. -/

/-- Exchange of grid-x/grid-y roles of a slot tuple as the spec words it:
the `[all, x, y]` ensemble-mean triple keeps its "all" entry first and swaps
x with y. -/
def specSwapSlots : Slots → Slots
  | .opts [a, b, c] => .opts [a, c, b]
  | .opts l => .opts l.reverse
  | .coord p => .coord (p.2, p.1)

/-- The spec's swap-axes transform of a whole plan. -/
def specSwapPlan (p : PanelPlan) : PanelPlan :=
  ⟨(p.panel_shape.2, p.panel_shape.1), p.var_idx_xy.reverse, p.var_len_xy.reverse,
   specSwapSlots p.ens_mean, specSwapSlots p.ref⟩

/-- The dimension index placed on the grid direction that the reference
panel extends (lines 113-118): direction 0 carries `var_idx_xy[0]` unless
that is the lead-time dimension, in which case direction 1, carrying
`var_idx_xy[1]`, is extended. -/
def refExtendDim (x0 x1 : Nat) : Nat := if x0 ≠ 1 then x0 else x1

/-! ## Concrete plans and binder inputs used by the boundary claims -/

def c2plan : PanelPlan := ⟨(2, 2), [1], [3], .opts [none, none, none], .opts [none, none]⟩

def c2ctx : BinderCtx := ⟨[0, 1, 2], [0], none⟩

def c3plan : PanelPlan := ⟨(2, 4), [1], [7], .opts [none, none, none], .opts [none, none]⟩

def c3ctx : BinderCtx := ⟨[0, 1, 2, 3, 4, 5, 6], [0], none⟩

def c4plan : PanelPlan := ⟨(3, 4), [0, 1], [3, 4], .opts [none, none, none], .opts [some 2, none]⟩

def c4ctx : BinderCtx := ⟨[0, 1, 2, 3], [0], none⟩

def c8plan : PanelPlan := ⟨(2, 3), [0, 1], [2, 3], .opts [none, none, none], .opts [none, none]⟩

def c8ctx : BinderCtx := ⟨[0, 1, 2], [0], none⟩

/-! ## General lemmas about `panelCore` -/

lemma confMapExc_ne_invalid (o : Option Nat) :
    confMapExc o ≠ .error .invalidDimension := by
  unfold confMapExc
  cases o with
  | none => simp
  | some n =>
    cases h : conf_map[n]? with
    | none => simp [h]
    | some v => simp [h]

lemma remapSlot_ne_invalid (o : Option Nat) :
    remapSlot o ≠ .error .invalidDimension := by
  unfold remapSlot
  cases h : confMapExc o with
  | error e =>
    simp only [h]
    intro hc
    injection hc with hc
    subst hc
    exact confMapExc_ne_invalid o h
  | ok v => cases v <;> simp [h]

lemma collapseStep_ne_invalid (x1 c : Nat) (pm ir : Bool)
    (em0 : Option Nat × Option Nat × Option Nat) (ref0 : Option Nat × Option Nat) :
    collapseStep x1 c pm ir em0 ref0 ≠ .error .invalidDimension := by
  unfold collapseStep
  split
  · simp
  · cases hem : (if pm then remapSlot em0.2.2 else .ok (slotsOf3 em0)) with
    | error e =>
      have he : e ≠ PanelError.invalidDimension := by
        cases pm with
        | false => simp at hem
        | true =>
          intro hc
          subst hc
          exact remapSlot_ne_invalid _ (by simpa using hem)
      simp only [hem]
      intro hc
      injection hc with hc
      exact he hc
    | ok s =>
      cases href : (if ir then remapSlot ref0.2 else .ok (slotsOf2 ref0)) with
      | error e =>
        have he : e ≠ PanelError.invalidDimension := by
          cases ir with
          | false => simp at href
          | true =>
            intro hc
            subst hc
            exact remapSlot_ne_invalid _ (by simpa using href)
        simp only [hem, href]
        intro hc
        injection hc with hc
        exact he hc
      | ok s2 =>
        cases hcm : confMapExc (some c) with
        | error e =>
          have he : e ≠ PanelError.invalidDimension := by
            intro hc
            subst hc
            exact confMapExc_ne_invalid _ hcm
          simp only [hem, href, hcm]
          intro hc
          injection hc with hc
          exact he hc
        | ok v => cases v <;> simp [hem, href, hcm]

lemma panelCore_ne_invalid (m l nm : Nat) (pm ir : Bool) :
    panelCore m l nm pm ir ≠ .error .invalidDimension := by
  simp only [panelCore]
  split
  · exact collapseStep_ne_invalid _ _ _ _ _ _
  · simp

lemma conf_entry_pos :
    ∀ o ∈ conf_map, ∀ p : Nat × Nat, o = some p → 1 ≤ p.1 ∧ p.1 ≤ p.2 := by decide

lemma confMapExc_ok_pos (n : Nat) (p : Nat × Nat)
    (h : confMapExc (some n) = .ok (some p)) : 1 ≤ p.1 ∧ p.1 ≤ p.2 := by
  unfold confMapExc at h
  dsimp only at h
  cases hl : conf_map[n]? with
  | none => rw [hl] at h; simp at h
  | some v =>
    rw [hl] at h
    simp only [Except.ok.injEq] at h
    subst h
    exact conf_entry_pos _ (List.getElem?_mem hl) p rfl

lemma collapseStep_ok_shape (x1 c : Nat) (pm ir : Bool)
    (em0 : Option Nat × Option Nat × Option Nat) (ref0 : Option Nat × Option Nat)
    (p : PanelPlan) (h : collapseStep x1 c pm ir em0 ref0 = .ok p) :
    1 ≤ p.panel_shape.1 ∧ 1 ≤ p.panel_shape.2 := by
  unfold collapseStep at h
  split at h
  · simp at h
  · cases hem : (if pm then remapSlot em0.2.2 else .ok (slotsOf3 em0)) with
    | error e => rw [hem] at h; simp at h
    | ok s =>
      cases href : (if ir then remapSlot ref0.2 else .ok (slotsOf2 ref0)) with
      | error e => rw [hem, href] at h; simp at h
      | ok s2 =>
        cases hcm : confMapExc (some c) with
        | error e => rw [hem, href, hcm] at h; simp at h
        | ok v =>
          cases v with
          | none => rw [hem, href, hcm] at h; simp at h
          | some pr =>
            rw [hem, href, hcm] at h
            simp only [Except.ok.injEq] at h
            subst h
            have := confMapExc_ok_pos c pr hcm
            exact ⟨this.1, le_trans this.1 this.2⟩

lemma dimLen_pos (m l nm : Nat) (h0 : m ≠ 0) (h1 : l ≠ 0) (h2 : nm ≠ 0) (i : Nat) :
    1 ≤ dimLen m l nm i := by
  rcases i with _ | _ | i <;> simp [dimLen] <;> omega

lemma refExtend_shape (ir : Bool) (x0 : Nat) (shape : Nat × Nat) :
    shape.1 ≤ (refExtend ir x0 shape).2.1 ∧ shape.2 ≤ (refExtend ir x0 shape).2.2 := by
  unfold refExtend
  split
  · split <;> simp
  · simp

lemma panelCore_shape_pos (m l nm : Nat) (pm ir : Bool)
    (h0 : m ≠ 0) (h1 : l ≠ 0) (h2 : nm ≠ 0) (p : PanelPlan)
    (h : panelCore m l nm pm ir = .ok p) :
    1 ≤ p.panel_shape.1 ∧ 1 ≤ p.panel_shape.2 := by
  simp only [panelCore] at h
  split at h
  · exact collapseStep_ok_shape _ _ _ _ _ _ p h
  · simp only [Except.ok.injEq] at h
    subst h
    dsimp only
    constructor
    · exact le_trans (dimLen_pos m l nm h0 h1 h2 (argsort3 m l nm).2.1)
        (refExtend_shape ir (argsort3 m l nm).2.1
          (dimLen m l nm (argsort3 m l nm).2.1, dimLen m l nm (argsort3 m l nm).2.2)).1
    · exact le_trans (dimLen_pos m l nm h0 h1 h2 (argsort3 m l nm).2.2)
        (refExtend_shape ir (argsort3 m l nm).2.1
          (dimLen m l nm (argsort3 m l nm).2.1, dimLen m l nm (argsort3 m l nm).2.2)).2

/-! ## The claims -/

/-- C1 (amended).  For every input satisfying the preconditions
(`num_models ≥ 1`, `num_lead_times ≥ 1`, no zero cardinality, at least one
of the three dimensions of length exactly 1), the resolver never fails with
`InvalidDimensionError`, and whenever it returns a plan both `panel_shape`
entries are ≥ 1.  Unconditional success does not hold: the collapsed 1D case
can fail with `PanelLimitExceeded` (count above the packing table) or with
the `TypeError` of the ensemble-mean/reference `conf_map` remap. -/
theorem panel_daemon_valid_shape_pos (m l : Nat) (es : Option Nat) (pm ir sw : Bool)
    (hm : 1 ≤ m) (hl : 1 ≤ l)
    (h0 : 0 ∉ varLen3 m l es pm) (h1 : 1 ∈ varLen3 m l es pm) :
    panel_daemon m l es pm ir sw ≠ .error .invalidDimension ∧
    ∀ p, panel_daemon m l es pm ir sw = .ok p →
      1 ≤ p.panel_shape.1 ∧ 1 ≤ p.panel_shape.2 := by
  have h0' : ¬ (0 ∈ [m, l, numMembers es pm]) := by simpa [varLen3] using h0
  have h1' : (1 ∈ [m, l, numMembers es pm]) := by simpa [varLen3] using h1
  simp only [panel_daemon, if_neg h0', if_neg (not_not.mpr h1')]
  cases hc : panelCore m l (numMembers es pm) pm ir with
  | error e =>
    constructor
    · intro hcontra
      injection hcontra with hcontra
      subst hcontra
      exact panelCore_ne_invalid _ _ _ _ _ hc
    · intro p hp
      exact absurd hp (by simp)
  | ok p0 =>
    have hm0 : m ≠ 0 := by omega
    have hl0 : l ≠ 0 := by omega
    have hnm0 : numMembers es pm ≠ 0 := by
      intro hz
      exact h0' (by simp [hz])
    have hp0 := panelCore_shape_pos m l _ pm ir hm0 hl0 hnm0 p0 hc
    constructor
    · simp
    · intro p hp
      injection hp with hp
      subst hp
      cases sw with
      | false => simpa using hp0
      | true =>
        simp only [if_pos rfl, swapPlan]
        exact ⟨hp0.2, hp0.1⟩

/-- C1, the counterexample to the claim as stated: a valid input (one model,
twenty lead times, deterministic) on which the resolver raises the panel
limit error instead of succeeding. -/
theorem panel_daemon_panel_limit_cex :
    panel_daemon 1 20 none false false false = .error .panelLimitExceeded := by decide

/-- C1, witness: the amended theorem applied at the concrete valid input
`(2, 3, None, False, False)`. -/
theorem panel_daemon_valid_shape_pos_witness :
    panel_daemon 2 3 none false false false ≠ Except.error PanelError.invalidDimension :=
  (panel_daemon_valid_shape_pos 2 3 none false false false (by decide) (by decide)
    (by decide) (by decide)).1

/-- C2, the counterexample to the claim as stated: with one model and three
lead times the initial panel shape is `(1, 3)`, whose minimum is below 2, so
the 1D degenerate collapse *does* trigger and the returned shape is `(2, 2)`
rather than `(1, 3)` (the collapsed plan carries a single axis index). -/
theorem panel_daemon_one_by_three_not_direct :
    panel_daemon 1 3 none false false false = .ok c2plan ∧
    c2plan.panel_shape ≠ (1, 3) ∧ c2plan.var_idx_xy.length = 1 := by decide

/-- C2 (amended).  `num_models=1, num_lead_times=3, ensemble_size=None,
plot_ensemble_mean=False, include_reference=False` triggers the 1D
degenerate collapse: the packing table maps count 3 to `(2, 2)`, and the
binder marks exactly one panel empty, the last cell of the 2x2 grid
(linear index 3). -/
theorem panel_daemon_one_by_three_collapses :
    panel_daemon 1 3 none false false false = .ok c2plan ∧
    conf_map.getD 3 none = some (2, 2) ∧
    (∀ (i : Fin 2) (j : Fin 2),
      roleAt c2plan false false c2ctx "ref" i.1 j.1 = some .empty ↔ i.1 = 1 ∧ j.1 = 1) := by
  decide

/-- C3.  `num_models=1, num_lead_times=7` (deterministic, no reference)
triggers the 1D collapse, the table maps count 7 to `(2, 4)`, and the binder
marks exactly one panel empty — the last cell of the grid, linear index 7 —
with no data selection and no labels. -/
theorem panel_daemon_seven_lead_times_empty_panel :
    panel_daemon 1 7 none false false false = .ok c3plan ∧
    conf_map.getD 7 none = some (2, 4) ∧
    (∀ (i : Fin 2) (j : Fin 4),
      roleAt c3plan false false c3ctx "ref" i.1 j.1 = some .empty ↔ i.1 = 1 ∧ j.1 = 3) ∧
    bindPanel c3plan false false c3ctx "ref" 1 3 = .ok ⟨.empty, none, none, none⟩ := by
  decide

/-- C4.  With two models, four lead times and a reference (ensemble
inactive) the reference is appended along the model axis: the plan is
`panel_shape=(3,4)` with the reference slot at row 2 for every column, and
in general the dimension occupying the extended direction is never the
lead-time dimension (index 1). -/
theorem panel_daemon_reference_axis :
    panel_daemon 2 4 none false true false = .ok c4plan ∧
    (∀ (i : Fin 3) (j : Fin 4),
      roleAt c4plan false true c4ctx "ref" i.1 j.1 = some .reference ↔ i.1 = 2) ∧
    (∀ a b c : Nat,
      (refExtendDim (argsort3 a b c).2.1 (argsort3 a b c).2.2 == 1) = false) := by
  refine ⟨by decide, by decide, ?_⟩
  intro a b c
  by_cases h1 : b < a <;> by_cases h2 : c < b <;> by_cases h3 : c < a <;>
    simp [argsort3, refExtendDim, h1, h2, h3]

/-- C5.  With `ensemble_size=5` and `plot_ensemble_mean=True` the member
slot count is 6; whenever the ensemble dimension (index 2) is one of the
two assigned grid axes the mean slot along that axis is index 5 — the
appended sixth slot, which no real member index 0..4 equals — and otherwise
the all-panels flag (`ens_mean[0] = 0`) is set.  Concretely, four models
with one lead time give the plan with the mean slot at grid-y index 5. -/
theorem ens_mean_slot_placement :
    (∀ x0 x1 : Nat,
      ensMeanSlots true x0 x1 (5 + 1) =
        if x0 = 2 then (none, some 5, none)
        else if x1 = 2 then (none, none, some 5)
        else (some 0, none, none)) ∧
    (∀ mIdx : Fin 5, (mIdx.1 == 5) = false) ∧
    panel_daemon 4 1 (some 5) true false false =
      .ok ⟨(4, 6), [0, 2], [4, 6], .opts [none, none, some 5], .opts [none, none]⟩ := by
  refine ⟨fun x0 x1 => rfl, by decide, by decide⟩

/-- C6.  The resolver fails with `InvalidDimensionError` exactly when a
resolved dimension cardinality is zero or no dimension has length exactly
one; the error comes from the pure resolver itself, before any data is
bound. -/
theorem panel_daemon_invalid_dimension_iff (m l : Nat) (es : Option Nat) (pm ir sw : Bool) :
    panel_daemon m l es pm ir sw = .error .invalidDimension ↔
      0 ∈ varLen3 m l es pm ∨ 1 ∉ varLen3 m l es pm := by
  simp only [panel_daemon, varLen3]
  by_cases hc0 : 0 ∈ [m, l, numMembers es pm]
  · simp [hc0]
  · by_cases hc1 : 1 ∈ [m, l, numMembers es pm]
    · simp only [if_neg hc0, if_neg (not_not.mpr hc1)]
      cases hc : panelCore m l (numMembers es pm) pm ir with
      | ok p => simp [hc0, hc1]
      | error e =>
        constructor
        · intro hcontra
          injection hcontra with hcontra
          subst hcontra
          exact absurd hc (panelCore_ne_invalid _ _ _ _ _)
        · intro hcond
          rcases hcond with h | h
          · exact absurd h hc0
          · exact absurd hc1 h
    · simp [hc0, hc1]

/-- C6, witness: the claim's concrete error case, three models by four lead
times by two members (no dimension of length 1). -/
theorem panel_daemon_invalid_dimension_iff_witness :
    panel_daemon 3 4 (some 2) false false false = Except.error PanelError.invalidDimension :=
  (panel_daemon_invalid_dimension_iff 3 4 (some 2) false false false).mpr
    (Or.inr (by decide))

/-- C7 (amended).  The plan for `swap_axes=True` is the `swap_axes=False`
plan with every component reversed: `panel_shape` transposed, the axis
assignment and axis lengths exchanged, the reference pair's coordinates
exchanged — but the ensemble-mean triple `[all, x, y]` is reversed
wholesale, which is *not* a grid-x/grid-y exchange when it is a 3-tuple. -/
theorem panel_daemon_swap_axes_reversal (m l : Nat) (es : Option Nat) (pm ir : Bool) :
    panel_daemon m l es pm ir true = Except.map swapPlan (panel_daemon m l es pm ir false) := by
  simp only [panel_daemon]
  by_cases hc0 : 0 ∈ [m, l, numMembers es pm]
  · simp [hc0, Except.map]
  · by_cases hc1 : 1 ∈ [m, l, numMembers es pm]
    · simp only [if_neg hc0, if_neg (not_not.mpr hc1)]
      cases hc : panelCore m l (numMembers es pm) pm ir <;> simp [Except.map]
    · simp [hc0, hc1, Except.map]

/-- C7, the counterexample to the claim as stated: with an ensemble-mean
panel requested (`ens_size=0`, mean only), the swapped plan is not the
spec's transposition of the unswapped plan — the "all panels" flag of the
3-tuple `ens_mean` migrates from the first to the last position. -/
theorem swap_axes_spec_transpose_cex :
    panel_daemon 2 3 (some 0) true false true ≠
      Except.map specSwapPlan (panel_daemon 2 3 (some 0) true false false) := by decide

/-- C8.  For the `(2, 3)` grid with the model dimension on rows and the
lead-time dimension on columns (no ensemble mean, no reference), the binder
populates the top label exactly on cells with `i = 0` and the left label
exactly on cells with `j = 0`. -/
theorem binder_edge_only_labels :
    panel_daemon 2 3 none false false false = .ok c8plan ∧
    (∀ (i : Fin 2) (j : Fin 3),
      ((titlexAt c8plan false false c8ctx "ref" i.1 j.1).isSome ↔ i.1 = 0) ∧
      ((titleyAt c8plan false false c8ctx "ref" i.1 j.1).isSome ↔ j.1 = 0)) := by
  decide

/-- C9.  Every packing-table entry for counts 1..16 has at least as many
cells as the count (no real panel is dropped) and is horizontally preferred
(`rows ≤ cols`). -/
theorem conf_map_covers_counts :
    ∀ c : Fin 16, c.1 + 1 ≤ (confPair (c.1 + 1)).1 * (confPair (c.1 + 1)).2 ∧
      (confPair (c.1 + 1)).1 ≤ (confPair (c.1 + 1)).2 := by decide

lemma collectMembers_length {Raw : Type} (find : Nat → Option Raw) :
    ∀ n raws, collectMembers find n = .ok raws → raws.length = n := by
  intro n
  induction n with
  | zero =>
    intro raws h
    unfold collectMembers at h
    simp only [Except.ok.injEq] at h
    subst h
    rfl
  | succ k ih =>
    intro raws h
    unfold collectMembers at h
    cases hc : collectMembers find k with
    | error e => rw [hc] at h; simp at h
    | ok rs =>
      cases hf : find k with
      | none => rw [hc, hf] at h; simp at h
      | some r =>
        rw [hc, hf] at h
        simp only [Except.ok.injEq] at h
        subst h
        simp [ih rs hc]

lemma withMembers_parts {Raw : Type} :
    ∀ (raws : List Raw) (k : Nat),
      ((withMembers raws k).map (·.memberCoords)).flatten = List.range' k raws.length ∧
      ((withMembers raws k).map (·.slices)).flatten = raws := by
  intro raws
  induction raws with
  | nil => intro k; exact ⟨rfl, rfl⟩
  | cons r rest ih =>
    intro k
    constructor
    · show k :: ((withMembers rest (k + 1)).map (·.memberCoords)).flatten =
        List.range' k (rest.length + 1)
      rw [(ih (k + 1)).1]
      rfl
    · show r :: ((withMembers rest (k + 1)).map (·.slices)).flatten = r :: rest
      rw [(ih (k + 1)).2]

/-- C10.  Whatever dataset `get_data` returns has a members dimension whose
coordinate list and slice list agree in (positive) length, so member-first
indexing `data[field][member, lead_time, ...]` is well-formed: a single
`.nc` file and the deterministic glob get a size-1 members axis with
coordinate `[1]`, and ensemble mode concatenates one slice per member with
coordinates `0 .. ens_size-1`. -/
theorem get_data_members_dimension {Raw : Type} (src : DataSource Raw) (ds : EnsDS Raw)
    (h : get_data src = .ok ds) :
    ds.memberCoords.length = ds.slices.length ∧
    1 ≤ ds.memberCoords.length ∧
    (∀ raw, src = DataSource.ncFile raw → ds.memberCoords = [1]) ∧
    (∀ raw, src = DataSource.detDir raw → ds.memberCoords = [1]) ∧
    (∀ find n, src = DataSource.ensDir find n →
      ds.memberCoords = List.range n ∧ ds.slices.length = n) := by
  cases src with
  | ncFile raw =>
    unfold get_data expandDimsMembers at h
    simp only [Except.ok.injEq] at h
    subst h
    refine ⟨rfl, by simp, fun r hr => rfl, fun r hr => DataSource.noConfusion hr,
      fun f n hr => DataSource.noConfusion hr⟩
  | detDir raw =>
    unfold get_data expandDimsMembers at h
    simp only [Except.ok.injEq] at h
    subst h
    refine ⟨rfl, by simp, fun r hr => DataSource.noConfusion hr, fun r hr => rfl,
      fun f n hr => DataSource.noConfusion hr⟩
  | ensDir find n =>
    unfold get_data at h
    dsimp only at h
    cases hc : collectMembers find n with
    | error e => rw [hc] at h; simp at h
    | ok raws =>
      rw [hc] at h
      have hlen := collectMembers_length find n raws hc
      cases raws with
      | nil =>
        unfold xrConcatMembers withMembers at h
        simp at h
      | cons r rest =>
        have hw := withMembers_parts (r :: rest) 0
        unfold xrConcatMembers at h
        dsimp only [withMembers] at h
        simp only [Except.ok.injEq] at h
        subst h
        have hco : ((expandDimsMembers r 0 :: withMembers rest 1).map
            (·.memberCoords)).flatten = List.range' 0 (r :: rest).length := hw.1
        have hsl : ((expandDimsMembers r 0 :: withMembers rest 1).map
            (·.slices)).flatten = r :: rest := hw.2
        refine ⟨?_, ?_, fun r2 hr => DataSource.noConfusion hr,
          fun r2 hr => DataSource.noConfusion hr, ?_⟩
        · show _ = _
          rw [hco, hsl, List.length_range']
        · rw [hco, List.length_range']
          simp
        · intro f n2 hr
          injection hr with hf hn
          subst hf
          subst hn
          constructor
          · show ((expandDimsMembers r 0 :: withMembers rest 1).map
              (·.memberCoords)).flatten = List.range n
            rw [hco, List.range_eq_range', hlen]
          · show ((expandDimsMembers r 0 :: withMembers rest 1).map
              (·.slices)).flatten.length = n
            rw [hsl, hlen]

/-- C10, witness: the theorem applied to a concrete single-`.nc`-file
source. -/
theorem get_data_members_dimension_witness :
    (⟨[1], [0]⟩ : EnsDS Nat).memberCoords = [1] :=
  (get_data_members_dimension (DataSource.ncFile 0) ⟨[1], [0]⟩ rfl).2.2.1 0 rfl
